import Mathlib

/-!
Verification development for the embedded IDE (MCP) server of a terminal
code-review tool. The definitions below are a shallow embedding of the Rust
modules `src/ide/protocol.rs`, `src/ide/state.rs`, `src/ide/tools/*.rs`,
`src/ide/handlers.rs` and the message-handling part of `src/ide/server.rs`.

JSON values (`serde_json::Value`) are modelled by the inductive `Json`;
numbers are modelled as integers (all numeric values handled by this server
are integer line numbers, ids and error codes). Serde's struct
(de)serialization is modelled field-by-field following the serde attributes in
the source (`skip_serializing_if`, `default`, `rename_all = "camelCase"`,
`untagged`, Option semantics). The async mpsc command channel is modelled by a
boolean `sendOk` (whether the receiving end of the channel is still open) plus
an explicit list of the commands delivered to the host loop.
-/

/-- Shallow model of `serde_json::Value`. Object fields are an association
list in insertion order (key lookups model serde field access; all keys this
development looks up are distinct in every object it builds). -/
inductive Json where
  | null : Json
  | bool : Bool → Json
  | num : Int → Json
  | str : String → Json
  | arr : List Json → Json
  | obj : List (String × Json) → Json

/-- Field lookup in a JSON object fields list (first match wins; all objects
built by this development have distinct keys). -/
def lookupField : List (String × Json) → String → Option Json
  | [], _ => none
  | (k, v) :: rest, key => if k == key then some v else lookupField rest key

/-- Lookup of a field in a JSON value; `none` on non-objects. -/
def jsonLookup : Json → String → Option Json
  | Json.obj fs, key => lookupField fs key
  | _, _ => none

/-- Model of `serde_json::Value::as_str`. -/
def Json.asStr : Json → Option String
  | Json.str s => some s
  | _ => none

/-- Model of `serde_json::Value::as_i64` (numbers are already integers in
this model). -/
def Json.asI64 : Json → Option Int
  | Json.num n => some n
  | _ => none

/-- Escaping of one character as in serde_json's compact string output.
Character codes: 34 = double quote, 92 = backslash, 10/9/13 = newline, tab,
carriage return. No other control characters occur in any string this
development renders. -/
def escChar (c : Char) : String :=
  if c.toNat == 34 then "\\\""
  else if c.toNat == 92 then "\\\\"
  else if c.toNat == 10 then "\\n"
  else if c.toNat == 9 then "\\t"
  else if c.toNat == 13 then "\\r"
  else c.toString

/-- Character-by-character escaping loop. -/
def escapeChars : List Char → String
  | [] => ""
  | c :: rest => escChar c ++ escapeChars rest

/-- Escape a whole string as serde_json does inside double quotes. -/
def escapeJsonString (s : String) : String :=
  escapeChars s.toList

mutual

/-- Model of `serde_json::to_string`: compact rendering, fields in
declaration order, no added whitespace. -/
def Json.render : Json → String
  | Json.null => "null"
  | Json.bool b => if b then "true" else "false"
  | Json.num n => toString n
  | Json.str s => "\"" ++ escapeJsonString s ++ "\""
  | Json.arr xs => "[" ++ Json.renderList xs ++ "]"
  | Json.obj fs => "\x7b" ++ Json.renderFields fs ++ "\x7d"

/-- Comma-separated rendering of array elements. -/
def Json.renderList : List Json → String
  | [] => ""
  | [x] => Json.render x
  | x :: y :: rest => Json.render x ++ "," ++ Json.renderList (y :: rest)

/-- Comma-separated rendering of object fields. -/
def Json.renderFields : List (String × Json) → String
  | [] => ""
  | [(k, v)] => "\"" ++ escapeJsonString k ++ "\":" ++ Json.render v
  | (k, v) :: f :: rest =>
      "\"" ++ escapeJsonString k ++ "\":" ++ Json.render v ++ "," ++
        Json.renderFields (f :: rest)

end

/-- Substring test helper: does `p` occur at the head of `l`? -/
def subAt : List Char → List Char → Bool
  | [], _ => true
  | _ :: _, [] => false
  | c :: p, d :: l => c == d && subAt p l

/-- Substring test helper: does `p` occur anywhere in `l`? -/
def hasSubList (p : List Char) : List Char → Bool
  | [] => subAt p []
  | c :: rest => subAt p (c :: rest) || hasSubList p rest

/-- `strContains s pat` holds when `pat` occurs as a contiguous substring of
`s` (models Rust `str::contains` for plain string patterns). -/
def strContains (s pat : String) : Bool :=
  hasSubList pat.toList s.toList

/-! ## Protocol types (`src/ide/protocol.rs`) -/

/-- JSON-RPC ID: a number or a string (serde `untagged`). -/
inductive JsonRpcId where
  | num : Int → JsonRpcId
  | str : String → JsonRpcId
deriving DecidableEq

/-- JSON-RPC 2.0 request (`JsonRpcRequest`). `params` carries serde's
`#[serde(default)]`. -/
structure JsonRpcRequest where
  jsonrpc : String
  id : Option JsonRpcId
  method : String
  params : Option Json

/-- JSON-RPC 2.0 error object (`JsonRpcError`); `data` is skipped when
absent. -/
structure JsonRpcError where
  code : Int
  message : String
  data : Option Json

/-- JSON-RPC 2.0 response (`JsonRpcResponse`); `id`, `result` and `error`
are skipped when absent. -/
structure JsonRpcResponse where
  jsonrpc : String
  id : Option JsonRpcId
  result : Option Json
  error : Option JsonRpcError

/-- `JsonRpcResponse::success`. -/
def JsonRpcResponse.success (id : Option JsonRpcId) (result : Json) :
    JsonRpcResponse :=
  { jsonrpc := "2.0", id := id, result := some result, error := none }

/-- `JsonRpcResponse::error` (named `mkError` here because the structure
already has a field called `error`). -/
def JsonRpcResponse.mkError (id : Option JsonRpcId) (error : JsonRpcError) :
    JsonRpcResponse :=
  { jsonrpc := "2.0", id := id, result := none, error := some error }

/-- JSON-RPC 2.0 notification (`JsonRpcNotification`); `params` is skipped
when absent. -/
structure JsonRpcNotification where
  jsonrpc : String
  method : String
  params : Option Json

/-- `JsonRpcNotification::new`. -/
def JsonRpcNotification.new (method : String) (params : Option Json) :
    JsonRpcNotification :=
  { jsonrpc := "2.0", method := method, params := params }

/-- `JsonRpcError::parse_error`. -/
def JsonRpcError.parse_error : JsonRpcError :=
  { code := -32700, message := "Parse error", data := none }

/-- `JsonRpcError::invalid_request`. -/
def JsonRpcError.invalid_request (msg : String) : JsonRpcError :=
  { code := -32600, message := "Invalid request: " ++ msg, data := none }

/-- `JsonRpcError::method_not_found`. -/
def JsonRpcError.method_not_found (method : String) : JsonRpcError :=
  { code := -32601, message := "Method not found: " ++ method, data := none }

/-- `JsonRpcError::invalid_params`. -/
def JsonRpcError.invalid_params (msg : String) : JsonRpcError :=
  { code := -32602, message := "Invalid params: " ++ msg, data := none }

/-- `JsonRpcError::internal_error`. -/
def JsonRpcError.internal_error (msg : String) : JsonRpcError :=
  { code := -32603, message := "Internal error: " ++ msg, data := none }

/-! ### Serde encode/decode of the envelope shapes

Serialization follows the derive attributes on each struct: fields appear in
declaration order; an `Option` field marked `skip_serializing_if =
"Option::is_none"` is omitted when `None`, while an unmarked `Option` field
(request `id` and `params`) serializes `None` as JSON `null`.

Deserialization follows serde's semantics for `Option` fields: a missing or
`null` field yields `None`; in particular `Option<serde_json::Value>`
deserializes JSON `null` to `None` (not `Some(Value::Null)`). -/

/-- Serialization of `Option<JsonRpcId>` without skip: `None` becomes
`null`, `Some` the untagged id value. -/
def idNullable : Option JsonRpcId → Json
  | none => Json.null
  | some (JsonRpcId.num n) => Json.num n
  | some (JsonRpcId.str s) => Json.str s

/-- Deserialization of an optional `JsonRpcId` field (missing or `null`
gives `none`; a number or string gives the untagged id; anything else is a
deserialization failure). -/
def parseOptId : Option Json → Option (Option JsonRpcId)
  | none => some none
  | some Json.null => some none
  | some (Json.num n) => some (some (JsonRpcId.num n))
  | some (Json.str s) => some (some (JsonRpcId.str s))
  | some _ => none

/-- Deserialization of an `Option<serde_json::Value>` field: missing or
`null` gives `none`, any other value is kept. -/
def parseOptValue : Option Json → Option (Option Json)
  | none => some none
  | some Json.null => some none
  | some v => some (some v)

/-- Serialize a `JsonRpcRequest` (no skip attributes: all four fields are
always present; `None` options become `null`). -/
def JsonRpcRequest.toJson (r : JsonRpcRequest) : Json :=
  Json.obj [("jsonrpc", Json.str r.jsonrpc), ("id", idNullable r.id),
    ("method", Json.str r.method), ("params", (r.params).getD Json.null)]

/-- Deserialize a `JsonRpcRequest` from a JSON value (model of
`serde_json::from_str::<JsonRpcRequest>` at the value level). -/
def JsonRpcRequest.fromJson (j : Json) : Option JsonRpcRequest :=
  match j with
  | Json.obj _ => do
      let ver ← (jsonLookup j "jsonrpc").bind Json.asStr
      let id ← parseOptId (jsonLookup j "id")
      let m ← (jsonLookup j "method").bind Json.asStr
      let ps ← parseOptValue (jsonLookup j "params")
      some { jsonrpc := ver, id := id, method := m, params := ps }
  | _ => none

/-- Serialize a `JsonRpcError` (`data` omitted when absent). -/
def JsonRpcError.toJson (e : JsonRpcError) : Json :=
  Json.obj ([("code", Json.num e.code), ("message", Json.str e.message)] ++
    (match e.data with
     | none => []
     | some d => [("data", d)]))

/-- Deserialize a `JsonRpcError` from a JSON value. -/
def JsonRpcError.fromJson (j : Json) : Option JsonRpcError :=
  match j with
  | Json.obj _ => do
      let code ← (jsonLookup j "code").bind Json.asI64
      let msg ← (jsonLookup j "message").bind Json.asStr
      let data ← parseOptValue (jsonLookup j "data")
      some { code := code, message := msg, data := data }
  | _ => none

/-- Deserialization of an `Option<JsonRpcError>` field. -/
def parseOptError : Option Json → Option (Option JsonRpcError)
  | none => some none
  | some Json.null => some none
  | some v => (JsonRpcError.fromJson v).map some

/-- Serialize a `JsonRpcResponse` (`id`, `result`, `error` omitted when
absent). -/
def JsonRpcResponse.toJson (r : JsonRpcResponse) : Json :=
  Json.obj ([("jsonrpc", Json.str r.jsonrpc)] ++
    (match r.id with
     | none => []
     | some i => [("id", idNullable (some i))]) ++
    (match r.result with
     | none => []
     | some v => [("result", v)]) ++
    (match r.error with
     | none => []
     | some e => [("error", JsonRpcError.toJson e)]))

/-- Deserialize a `JsonRpcResponse` from a JSON value. -/
def JsonRpcResponse.fromJson (j : Json) : Option JsonRpcResponse :=
  match j with
  | Json.obj _ => do
      let ver ← (jsonLookup j "jsonrpc").bind Json.asStr
      let id ← parseOptId (jsonLookup j "id")
      let result ← parseOptValue (jsonLookup j "result")
      let error ← parseOptError (jsonLookup j "error")
      some { jsonrpc := ver, id := id, result := result, error := error }
  | _ => none

/-- Serialize a `JsonRpcNotification` (`params` omitted when absent). -/
def JsonRpcNotification.toJson (n : JsonRpcNotification) : Json :=
  Json.obj ([("jsonrpc", Json.str n.jsonrpc), ("method", Json.str n.method)] ++
    (match n.params with
     | none => []
     | some v => [("params", v)]))

/-- Deserialize a `JsonRpcNotification` from a JSON value. -/
def JsonRpcNotification.fromJson (j : Json) : Option JsonRpcNotification :=
  match j with
  | Json.obj _ => do
      let ver ← (jsonLookup j "jsonrpc").bind Json.asStr
      let m ← (jsonLookup j "method").bind Json.asStr
      let ps ← parseOptValue (jsonLookup j "params")
      some { jsonrpc := ver, method := m, params := ps }
  | _ => none

/-! ## MCP protocol types (`src/ide/protocol.rs`, second half) -/

/-- `MCP_PROTOCOL_VERSION`. -/
def MCP_PROTOCOL_VERSION : String := "2024-11-05"

/-- `RootsCapability` (field `list_changed` has serde `default`). -/
structure RootsCapability where
  list_changed : Bool

/-- `ClientCapabilities` (both fields have serde `default`). -/
structure ClientCapabilities where
  roots : Option RootsCapability
  sampling : Option Json

/-- `ClientInfo`. -/
structure ClientInfo where
  name : String
  version : Option String

/-- `InitializeParams` (camelCase field names on the wire). -/
structure InitializeParams where
  protocol_version : String
  capabilities : ClientCapabilities
  client_info : ClientInfo

/-- Deserialize a `RootsCapability` (`listChanged` defaults to `false` when
missing). -/
def RootsCapability.fromJson (j : Json) : Option RootsCapability :=
  match j with
  | Json.obj _ =>
      match jsonLookup j "listChanged" with
      | none => some { list_changed := false }
      | some (Json.bool b) => some { list_changed := b }
      | some _ => none
  | _ => none

/-- Deserialize `ClientCapabilities` (both fields defaulted: missing or
`null` gives `none`). -/
def ClientCapabilities.fromJson (j : Json) : Option ClientCapabilities :=
  match j with
  | Json.obj _ => do
      let roots ← match jsonLookup j "roots" with
        | none => some none
        | some Json.null => some none
        | some v => (RootsCapability.fromJson v).map some
      let sampling ← parseOptValue (jsonLookup j "sampling")
      some { roots := roots, sampling := sampling }
  | _ => none

/-- Deserialization of an `Option<String>` field. -/
def parseOptString : Option Json → Option (Option String)
  | none => some none
  | some Json.null => some none
  | some (Json.str s) => some (some s)
  | some _ => none

/-- Deserialize a `ClientInfo`. -/
def ClientInfo.fromJson (j : Json) : Option ClientInfo :=
  match j with
  | Json.obj _ => do
      let name ← (jsonLookup j "name").bind Json.asStr
      let version ← parseOptString (jsonLookup j "version")
      some { name := name, version := version }
  | _ => none

/-- Deserialize `InitializeParams` (all three fields required). -/
def InitializeParams.fromJson (j : Json) : Option InitializeParams :=
  match j with
  | Json.obj _ => do
      let pv ← (jsonLookup j "protocolVersion").bind Json.asStr
      let caps ← (jsonLookup j "capabilities").bind ClientCapabilities.fromJson
      let ci ← (jsonLookup j "clientInfo").bind ClientInfo.fromJson
      some { protocol_version := pv, capabilities := caps, client_info := ci }
  | _ => none

/-- `ToolsCapability`. -/
structure ToolsCapability where
  list_changed : Bool

/-- `ServerCapabilities` (all fields skipped when absent). -/
structure ServerCapabilities where
  tools : Option ToolsCapability
  resources : Option Json
  prompts : Option Json

/-- `ServerInfo` (`version` skipped when absent). -/
structure ServerInfo where
  name : String
  version : Option String

/-- `InitializeResult` (`instructions` skipped when absent). -/
structure InitializeResult where
  protocol_version : String
  capabilities : ServerCapabilities
  server_info : ServerInfo
  instructions : Option String

/-- Serialize `ServerCapabilities`. -/
def ServerCapabilities.toJson (c : ServerCapabilities) : Json :=
  Json.obj ((match c.tools with
     | none => []
     | some t => [("tools", Json.obj [("listChanged", Json.bool t.list_changed)])]) ++
    (match c.resources with
     | none => []
     | some r => [("resources", r)]) ++
    (match c.prompts with
     | none => []
     | some p => [("prompts", p)]))

/-- Serialize `ServerInfo`. -/
def ServerInfo.toJson (s : ServerInfo) : Json :=
  Json.obj ([("name", Json.str s.name)] ++
    (match s.version with
     | none => []
     | some v => [("version", Json.str v)]))

/-- Serialize `InitializeResult` (camelCase keys). -/
def InitializeResult.toJson (r : InitializeResult) : Json :=
  Json.obj ([("protocolVersion", Json.str r.protocol_version),
    ("capabilities", ServerCapabilities.toJson r.capabilities),
    ("serverInfo", ServerInfo.toJson r.server_info)] ++
    (match r.instructions with
     | none => []
     | some i => [("instructions", Json.str i)]))

/-- `Tool`: an MCP tool definition (`description` skipped when absent;
`inputSchema` on the wire). -/
structure Tool where
  name : String
  description : Option String
  input_schema : Json

/-- Serialize a `Tool`. -/
def Tool.toJson (t : Tool) : Json :=
  Json.obj ([("name", Json.str t.name)] ++
    (match t.description with
     | none => []
     | some d => [("description", Json.str d)]) ++
    [("inputSchema", t.input_schema)])

/-- `ToolsListResult`. -/
structure ToolsListResult where
  tools : List Tool

/-- Serialize a `ToolsListResult`. -/
def ToolsListResult.toJson (r : ToolsListResult) : Json :=
  Json.obj [("tools", Json.arr (r.tools.map Tool.toJson))]

/-- `ToolsCallParams`: tool name plus an arguments map (serde-defaulted to
empty; `HashMap<String, Value>` modelled as an association list). -/
structure ToolsCallParams where
  name : String
  arguments : List (String × Json)

/-- Deserialize `ToolsCallParams`: `name` must be a string, `arguments` must
be a JSON object when present (missing gives the empty map, anything else is
a deserialization failure). -/
def ToolsCallParams.fromJson (j : Json) : Option ToolsCallParams :=
  match j with
  | Json.obj _ => do
      let name ← (jsonLookup j "name").bind Json.asStr
      let args ← match jsonLookup j "arguments" with
        | none => some []
        | some (Json.obj fs) => some fs
        | some _ => none
      some { name := name, arguments := args }
  | _ => none

/-- Lookup in a tool-call arguments map (models `HashMap::get`). -/
def argsGet (args : List (String × Json)) (key : String) : Option Json :=
  lookupField args key

/-- `ToolContent`: internally tagged content item (only the `text` variant
exists). -/
inductive ToolContent where
  | text : String → ToolContent
deriving DecidableEq

/-- Serialize a `ToolContent`. -/
def ToolContent.toJson : ToolContent → Json
  | ToolContent.text t => Json.obj [("type", Json.str "text"), ("text", Json.str t)]

/-- `ToolsCallResult` (`isError` omitted on the wire when `false`). -/
structure ToolsCallResult where
  content : List ToolContent
  is_error : Bool
deriving DecidableEq

/-- Serialize a `ToolsCallResult`. -/
def ToolsCallResult.toJson (r : ToolsCallResult) : Json :=
  Json.obj ([("content", Json.arr (r.content.map ToolContent.toJson))] ++
    (if r.is_error then [("isError", Json.bool true)] else []))

/-- `Position` (u32 line/character modelled as `Nat`). -/
structure Position where
  line : Nat
  character : Nat
deriving DecidableEq

/-- `SelectionRange`. -/
structure SelectionRange where
  start : Position
  «end» : Position
deriving DecidableEq

/-- Serialize a `Position`. -/
def Position.toJson (p : Position) : Json :=
  Json.obj [("line", Json.num p.line), ("character", Json.num p.character)]

/-- Serialize a `SelectionRange`. -/
def SelectionRange.toJson (r : SelectionRange) : Json :=
  Json.obj [("start", Position.toJson r.start), ("end", Position.toJson r.«end»)]

/-- `SelectionResult`: payload of the `getCurrentSelection` tool. -/
structure SelectionResult where
  file_path : String
  text : String
  selection : SelectionRange

/-- Serialize a `SelectionResult` (camelCase keys). -/
def SelectionResult.toJson (r : SelectionResult) : Json :=
  Json.obj [("filePath", Json.str r.file_path), ("text", Json.str r.text),
    ("selection", SelectionRange.toJson r.selection)]

/-- `OpenEditor`: one entry of the `getOpenEditors` payload. -/
structure OpenEditor where
  file_path : String
  language_id : String
  is_dirty : Option Bool
  is_active : Option Bool

/-- Serialize an `OpenEditor` (camelCase keys, optional flags skipped when
absent). -/
def OpenEditor.toJson (e : OpenEditor) : Json :=
  Json.obj ([("filePath", Json.str e.file_path),
    ("languageId", Json.str e.language_id)] ++
    (match e.is_dirty with
     | none => []
     | some b => [("isDirty", Json.bool b)]) ++
    (match e.is_active with
     | none => []
     | some b => [("isActive", Json.bool b)]))

/-- `WorkspaceFolder`: one entry of the `getWorkspaceFolders` payload. -/
structure WorkspaceFolder where
  uri : String
  name : String

/-- Serialize a `WorkspaceFolder`. -/
def WorkspaceFolder.toJson (f : WorkspaceFolder) : Json :=
  Json.obj [("uri", Json.str f.uri), ("name", Json.str f.name)]

/-- `DiagnosticSeverity` (serialized as the camelCase strings "error",
"warning", "information", "hint"). -/
inductive DiagnosticSeverity where
  | error : DiagnosticSeverity
  | warning : DiagnosticSeverity
  | information : DiagnosticSeverity
  | hint : DiagnosticSeverity
deriving DecidableEq

/-- Serialize a `DiagnosticSeverity`. -/
def DiagnosticSeverity.toJson : DiagnosticSeverity → Json
  | DiagnosticSeverity.error => Json.str "error"
  | DiagnosticSeverity.warning => Json.str "warning"
  | DiagnosticSeverity.information => Json.str "information"
  | DiagnosticSeverity.hint => Json.str "hint"

/-- `Diagnostic`: one entry of the `getDiagnostics` payload. -/
structure Diagnostic where
  file_path : String
  range : SelectionRange
  message : String
  severity : DiagnosticSeverity
  source : Option String
deriving DecidableEq

/-- Serialize a `Diagnostic` (camelCase keys, `source` skipped when
absent). -/
def Diagnostic.toJson (d : Diagnostic) : Json :=
  Json.obj ([("filePath", Json.str d.file_path),
    ("range", SelectionRange.toJson d.range),
    ("message", Json.str d.message),
    ("severity", DiagnosticSeverity.toJson d.severity)] ++
    (match d.source with
     | none => []
     | some s => [("source", Json.str s)]))

/-- `OpenFileResult`: payload of the `openFile` tool (`error` skipped when
absent). -/
structure OpenFileResult where
  success : Bool
  error : Option String

/-- Serialize an `OpenFileResult`. -/
def OpenFileResult.toJson (r : OpenFileResult) : Json :=
  Json.obj ([("success", Json.bool r.success)] ++
    (match r.error with
     | none => []
     | some e => [("error", Json.str e)]))

/-! ## IDE state snapshot (`src/ide/state.rs`) -/

/-- `Selection`: selection information from the diff viewer (u32 lines as
`Nat`). -/
structure Selection where
  file_path : String
  text : String
  start_line : Nat
  end_line : Nat
deriving DecidableEq

/-- `OpenFileInfo`: one open file of the review session. -/
structure OpenFileInfo where
  file_path : String
  language_id : String
  is_dirty : Bool
  is_active : Bool
  status : String
  reviewed : Bool
deriving DecidableEq

/-- `WorkspaceFolderInfo`. -/
structure WorkspaceFolderInfo where
  path : String
  name : String
deriving DecidableEq

/-- `DiagnosticInfo`: one review comment exposed as a diagnostic. -/
structure DiagnosticInfo where
  file_path : String
  start_line : Nat
  end_line : Nat
  message : String
  severity : String
  comment_type : String
deriving DecidableEq

/-- `IdeState`: the snapshot of review-session state queried by tools. -/
structure IdeState where
  selection : Option Selection
  open_files : List OpenFileInfo
  workspace_path : Option String
  workspace_name : Option String
  diagnostics : List DiagnosticInfo
  active_file_index : Nat
deriving DecidableEq

/-- `IdeState::new` (the `Default` state: everything empty, index 0). -/
def IdeState.new : IdeState :=
  { selection := none, open_files := [], workspace_path := none,
    workspace_name := none, diagnostics := [], active_file_index := 0 }

/-- `IdeState::get_selection`. -/
def IdeState.get_selection (s : IdeState) : Option Selection :=
  s.selection

/-- `IdeState::get_open_editors`. -/
def IdeState.get_open_editors (s : IdeState) : List OpenFileInfo :=
  s.open_files

/-- The final path segment of a workspace path, used when no explicit
workspace name was set (models `PathBuf::file_name().to_string_lossy()` with
the `"workspace"` fallback; a path with no final segment, e.g. `"/"`, has no
file name). A segment here is a maximal run between `/` separators, with
trailing slashes ignored, as in `std::path`. -/
def pathFileName (path : String) : Option String :=
  match (path.splitOn "/").filter (fun seg => seg != "") with
  | [] => none
  | segs => segs.getLast?

/-- `IdeState::get_workspace_folders`. -/
def IdeState.get_workspace_folders (s : IdeState) : List WorkspaceFolderInfo :=
  match s.workspace_path, s.workspace_name with
  | some path, some name => [{ path := path, name := name }]
  | some path, none =>
      [{ path := path, name := (pathFileName path).getD "workspace" }]
  | _, _ => []

/-- `IdeState::get_diagnostics`: all diagnostics, or those whose path equals
the filter exactly. -/
def IdeState.get_diagnostics (s : IdeState) (file_path : Option String) :
    List DiagnosticInfo :=
  match file_path with
  | some path => s.diagnostics.filter (fun d => d.file_path == path)
  | none => s.diagnostics

/-- `IdeState::set_selection`. -/
def IdeState.set_selection (s : IdeState) (selection : Option Selection) :
    IdeState :=
  { s with selection := selection }

/-- `IdeState::set_open_files`. -/
def IdeState.set_open_files (s : IdeState) (files : List OpenFileInfo) :
    IdeState :=
  { s with open_files := files }

/-- `IdeState::set_workspace`. -/
def IdeState.set_workspace (s : IdeState) (path : String)
    (name : Option String) : IdeState :=
  { s with workspace_path := some path, workspace_name := name }

/-- `IdeState::set_diagnostics`. -/
def IdeState.set_diagnostics (s : IdeState) (diagnostics : List DiagnosticInfo) :
    IdeState :=
  { s with diagnostics := diagnostics }

/-- The `is_active`-flag update loop of `IdeState::set_active_file`: position
`i` (counted from `k`) becomes active exactly when it equals `index`. -/
def setActiveFlags (index : Nat) : Nat → List OpenFileInfo → List OpenFileInfo
  | _, [] => []
  | i, f :: rest =>
      { f with is_active := i == index } :: setActiveFlags index (i + 1) rest

/-- `IdeState::set_active_file`: store the index and refresh every file's
`is_active` flag. -/
def IdeState.set_active_file (s : IdeState) (index : Nat) : IdeState :=
  { s with
    active_file_index := index,
    open_files := setActiveFlags index 0 s.open_files }

/-! ## Commands to the host loop (`src/ide/mod.rs`) -/

/-- `IdeCommand`: commands sent from the IDE server to the main event
loop. -/
inductive IdeCommand where
  | OpenFile : String → Option Nat → IdeCommand
deriving DecidableEq

/-! ## Tools (`src/ide/tools/*.rs`)

Each tool is a pure function of the state snapshot (plus, for `openFile`,
the command channel). The channel `command_tx.send(cmd).await` is modelled by
a boolean `sendOk` (true iff the receiver side is still open) and each tool
returns, besides its `ToolsCallResult`, the list of commands delivered to the
host loop. -/

/-- The constant "no selection" payload of `get_current_selection` (the raw
string literal from the source). -/
def noSelectionText : String :=
  "\x7b\"error\": \"No selection\", \"message\": \"No text is currently selected in the diff viewer\"\x7d"

/-- `get_current_selection` (`src/ide/tools/get_current_selection.rs`). -/
def get_current_selection (state : IdeState) : ToolsCallResult :=
  match state.get_selection with
  | some sel =>
      let result : SelectionResult :=
        { file_path := sel.file_path, text := sel.text,
          selection :=
            { start := { line := sel.start_line, character := 0 },
              «end» := { line := sel.end_line, character := 0 } } }
      { content := [ToolContent.text (Json.render result.toJson)],
        is_error := false }
  | none =>
      { content := [ToolContent.text noSelectionText], is_error := false }

/-- `get_open_editors` (`src/ide/tools/get_open_editors.rs`). -/
def get_open_editors (state : IdeState) : ToolsCallResult :=
  let result : List OpenEditor :=
    state.get_open_editors.map (fun e =>
      { file_path := e.file_path, language_id := e.language_id,
        is_dirty := some e.is_dirty, is_active := some e.is_active })
  { content := [ToolContent.text (Json.render (Json.arr (result.map OpenEditor.toJson)))],
    is_error := false }

/-- `get_workspace_folders` (`src/ide/tools/get_workspace_folders.rs`). -/
def get_workspace_folders (state : IdeState) : ToolsCallResult :=
  let result : List WorkspaceFolder :=
    state.get_workspace_folders.map (fun f =>
      { uri := "file://" ++ f.path, name := f.name })
  { content := [ToolContent.text (Json.render (Json.arr (result.map WorkspaceFolder.toJson)))],
    is_error := false }

/-- The severity-string mapping of `get_diagnostics`. -/
def severityOfString (s : String) : DiagnosticSeverity :=
  if s == "error" then DiagnosticSeverity.error
  else if s == "warning" then DiagnosticSeverity.warning
  else if s == "hint" then DiagnosticSeverity.hint
  else DiagnosticSeverity.information

/-- The per-entry conversion inside `get_diagnostics`. -/
def mapDiagnostic (d : DiagnosticInfo) : Diagnostic :=
  { file_path := d.file_path,
    range :=
      { start := { line := d.start_line, character := 0 },
        «end» := { line := d.end_line, character := 0 } },
    message := d.message,
    severity := severityOfString d.severity,
    source := some "tuicr" }

/-- The `result` list built by `get_diagnostics`
(`src/ide/tools/get_diagnostics.rs`): read the optional string `filePath`
argument, filter the stored diagnostics by it, convert each entry. -/
def get_diagnostics_list (state : IdeState) (arguments : List (String × Json)) :
    List Diagnostic :=
  let file_path_filter := (argsGet arguments "filePath").bind Json.asStr
  (state.get_diagnostics file_path_filter).map mapDiagnostic

/-- `get_diagnostics` (`src/ide/tools/get_diagnostics.rs`). -/
def get_diagnostics (state : IdeState) (arguments : List (String × Json)) :
    ToolsCallResult :=
  { content := [ToolContent.text (Json.render
      (Json.arr ((get_diagnostics_list state arguments).map Diagnostic.toJson)))],
    is_error := false }

/-- Rust `as u32` on an `i64`: truncation to the low 32 bits. -/
def intAsU32 (n : Int) : Nat :=
  (n % (2 ^ 32 : Int)).toNat

/-- `open_file` (`src/ide/tools/open_file.rs`). Returns the tool result and
the list of commands delivered to the host loop; `sendOk` models whether the
mpsc channel's receiver is still open (when it is not, the send fails and the
command is dropped). -/
def open_file (arguments : List (String × Json)) (sendOk : Bool) :
    ToolsCallResult × List IdeCommand :=
  match (argsGet arguments "filePath").bind Json.asStr with
  | none =>
      let result : OpenFileResult :=
        { success := false,
          error := some "Missing required parameter: filePath" }
      ({ content := [ToolContent.text (Json.render result.toJson)],
         is_error := true }, [])
  | some file_path =>
      let line := ((argsGet arguments "line").bind Json.asI64).map intAsU32
      let cmd := IdeCommand.OpenFile file_path line
      if sendOk then
        let result : OpenFileResult := { success := true, error := none }
        ({ content := [ToolContent.text (Json.render result.toJson)],
           is_error := false }, [cmd])
      else
        let result : OpenFileResult :=
          { success := false, error := some "Failed to send command: channel closed" }
        ({ content := [ToolContent.text (Json.render result.toJson)],
           is_error := true }, [])

/-- `all_tools` (`src/ide/tools/mod.rs`): the fixed registry of the five
tools with their JSON schemas. -/
def all_tools : List Tool :=
  [{ name := "getCurrentSelection",
     description := some ("Get the currently selected text in the diff viewer. Returns the file path, " ++
       "selected text, and line range of the selection."),
     input_schema := Json.obj [("type", Json.str "object"),
       ("properties", Json.obj []), ("required", Json.arr [])] },
   { name := "getOpenEditors",
     description := some ("Get the list of files open in the current code review session. Each file " ++
       "includes its path, status (added/modified/deleted), and review state."),
     input_schema := Json.obj [("type", Json.str "object"),
       ("properties", Json.obj []), ("required", Json.arr [])] },
   { name := "getWorkspaceFolders",
     description := some "Get the workspace folders (repository roots) for the current review session.",
     input_schema := Json.obj [("type", Json.str "object"),
       ("properties", Json.obj []), ("required", Json.arr [])] },
   { name := "getDiagnostics",
     description := some ("Get review comments as diagnostics. Issue-type comments are returned as errors, " ++
       "Suggestion-type as warnings, and Note/Praise as information."),
     input_schema := Json.obj [("type", Json.str "object"),
       ("properties", Json.obj [("filePath", Json.obj [("type", Json.str "string"),
         ("description", Json.str "Optional file path to filter diagnostics. If not provided, returns all diagnostics.")])]),
       ("required", Json.arr [])] },
   { name := "openFile",
     description := some "Navigate to a specific file in the diff viewer. Optionally jump to a specific line.",
     input_schema := Json.obj [("type", Json.str "object"),
       ("properties", Json.obj [("filePath", Json.obj [("type", Json.str "string"),
         ("description", Json.str "Path to the file to open")]),
         ("line", Json.obj [("type", Json.str "integer"),
           ("description", Json.str "Optional line number to jump to")])]),
       ("required", Json.arr [Json.str "filePath"])] }]

/-! ## Method handlers (`src/ide/handlers.rs`) -/

/-- The crate version baked in via `env!("CARGO_PKG_VERSION")`. The exact
value is irrelevant to every property below. -/
def cargoPkgVersion : String := "0.7.2"

/-- The instructions string returned by `initialize`. -/
def serverInstructions : String :=
  "tuicr is a TUI code review tool. You can query the current selection, " ++
  "open files, workspace, and review comments (diagnostics). Use openFile " ++
  "to navigate to specific files in the diff viewer."

/-- `handle_initialize` (named `handle_init` here): validate the params, then answer with protocol
version, capabilities, server info and instructions. -/
def handle_init (params : Option Json) (id : Option JsonRpcId) :
    JsonRpcResponse :=
  match params with
  | some p =>
      match InitializeParams.fromJson p with
      | some _ =>
          let result : InitializeResult :=
            { protocol_version := MCP_PROTOCOL_VERSION,
              capabilities :=
                { tools := some { list_changed := false },
                  resources := none, prompts := none },
              server_info := { name := "tuicr", version := some cargoPkgVersion },
              instructions := some serverInstructions }
          JsonRpcResponse.success id (InitializeResult.toJson result)
      | none =>
          JsonRpcResponse.mkError id
            (JsonRpcError.invalid_params "Failed to parse initialize params")
  | none =>
      JsonRpcResponse.mkError id
        (JsonRpcError.invalid_params "Missing initialize params")

/-- `handle_ping`: empty-object success. -/
def handle_ping (id : Option JsonRpcId) : JsonRpcResponse :=
  JsonRpcResponse.success id (Json.obj [])

/-- `handle_tools_list`: the full tool registry listing. -/
def handle_tools_list (id : Option JsonRpcId) : JsonRpcResponse :=
  JsonRpcResponse.success id (ToolsListResult.toJson { tools := all_tools })

/-- The text payload of the unknown-tool result in `dispatch_tool` (the
`format!` template rendered with the tool name). -/
def unknownToolText (name : String) : String :=
  "\x7b\"error\": \"Unknown tool: " ++ name ++ "\"\x7d"

/-- `dispatch_tool`: route a tool call to its handler; unknown names give a
tool-level (`isError: true`) result, not a protocol error. -/
def dispatch_tool (name : String) (arguments : List (String × Json))
    (state : IdeState) (sendOk : Bool) : ToolsCallResult × List IdeCommand :=
  if name = "getCurrentSelection" then (get_current_selection state, [])
  else if name = "getOpenEditors" then (get_open_editors state, [])
  else if name = "getWorkspaceFolders" then (get_workspace_folders state, [])
  else if name = "getDiagnostics" then (get_diagnostics state arguments, [])
  else if name = "openFile" then open_file arguments sendOk
  else ({ content := [ToolContent.text (unknownToolText name)],
          is_error := true }, [])

/-- `handle_tools_call`: missing or unparseable params give an
invalid-params protocol error; otherwise the tool result (errors included) is
wrapped in a protocol success response. -/
def handle_tools_call (params : Option Json) (id : Option JsonRpcId)
    (state : IdeState) (sendOk : Bool) : JsonRpcResponse × List IdeCommand :=
  match params with
  | some p =>
      match ToolsCallParams.fromJson p with
      | some call_params =>
          let r := dispatch_tool call_params.name call_params.arguments state sendOk
          (JsonRpcResponse.success id (ToolsCallResult.toJson r.1), r.2)
      | none =>
          (JsonRpcResponse.mkError id
            (JsonRpcError.invalid_params "Failed to parse tools/call params"), [])
  | none =>
      (JsonRpcResponse.mkError id
        (JsonRpcError.invalid_params "Missing tools/call params"), [])

/-- `handle_method`: the method dispatch table. Returns the optional
response together with the commands delivered to the host loop. -/
def handle_method (method : String) (params : Option Json)
    (id : Option JsonRpcId) (state : IdeState) (sendOk : Bool) :
    Option JsonRpcResponse × List IdeCommand :=
  if method = "initialize" then (some (handle_init params id), [])
  else if method = "initialized" then (none, [])
  else if method = "ping" then (some (handle_ping id), [])
  else if method = "tools/list" then (some (handle_tools_list id), [])
  else if method = "tools/call" then
    let r := handle_tools_call params id state sendOk
    (some r.1, r.2)
  else if method = "notifications/cancelled" then (none, [])
  else (some (JsonRpcResponse.mkError id (JsonRpcError.method_not_found method)), [])

/-! ## Message handling (`src/ide/server.rs`, `handle_message`) -/

/-- `handle_message` at the JSON-value level: decode the envelope (failure
gives a parse error), check the protocol tag (mismatch gives an
invalid-request error), then dispatch. The Rust function finally serializes
the response to the outgoing text frame; `handle_message_string` below adds
that step. -/
def handle_message (frame : Json) (state : IdeState) (sendOk : Bool) :
    Option JsonRpcResponse :=
  match JsonRpcRequest.fromJson frame with
  | none => some (JsonRpcResponse.mkError none JsonRpcError.parse_error)
  | some request =>
      if request.jsonrpc ≠ "2.0" then
        some (JsonRpcResponse.mkError request.id
          (JsonRpcError.invalid_request "Expected jsonrpc version 2.0"))
      else
        (handle_method request.method request.params request.id state sendOk).1

/-- `handle_message` including the final serialization of the response to
the outbound text frame. -/
def handle_message_string (frame : Json) (state : IdeState) (sendOk : Bool) :
    Option String :=
  (handle_message frame state sendOk).map (fun r => Json.render r.toJson)

/-! ## Helper predicates and sample states used by the properties -/

/-- Does a JSON schema's `"type"` field equal `"object"`? -/
def schemaTypeIsObject (schema : Json) : Bool :=
  match jsonLookup schema "type" with
  | some (Json.str s) => s == "object"
  | _ => false

/-- Does a JSON schema's `"required"` array list the given key? -/
def schemaRequiresField (schema : Json) (key : String) : Bool :=
  match jsonLookup schema "required" with
  | some (Json.arr xs) =>
      xs.any (fun j => match j with
        | Json.str s => s == key
        | _ => false)
  | _ => false

/-- A sample snapshot with two stored diagnostics. -/
def exDiagState : IdeState :=
  { IdeState.new with
    diagnostics :=
      [{ file_path := "a.rs", start_line := 1, end_line := 2,
         message := "m1", severity := "error", comment_type := "Issue" },
       { file_path := "b.rs", start_line := 3, end_line := 4,
         message := "m2", severity := "bogus", comment_type := "Note" }] }

/-- A sample snapshot with two open files, the first initially active. -/
def sampleState : IdeState :=
  { IdeState.new with
    open_files :=
      [{ file_path := "file1.rs", language_id := "rust", is_dirty := false,
         is_active := true, status := "Modified", reviewed := false },
       { file_path := "file2.rs", language_id := "rust", is_dirty := false,
         is_active := false, status := "Added", reviewed := false }] }

/-- Index-shifted characterization of `setActiveFlags`: the entry at
position `j` of the updated list is the original entry with its `is_active`
flag set to whether `k + j` equals the chosen index. -/
theorem setActiveFlags_get? (index k : Nat) (l : List OpenFileInfo) (j : Nat) :
    (setActiveFlags index k l).get? j =
      (l.get? j).map (fun f => { f with is_active := (k + j) == index }) := by
  induction l generalizing k j with
  | nil => simp [setActiveFlags]
  | cons f rest ih =>
    cases j with
    | zero => simp [setActiveFlags]
    | succ j =>
      have hk : k + (j + 1) = (k + 1) + j := by omega
      simp only [setActiveFlags, List.get?_cons_succ, hk]
      exact ih (k + 1) j

/-! ## Properties -/

/-- C1: for every `tools/call` request whose params are missing or fail to
parse as `{name, arguments}`, the dispatcher returns a JSON-RPC error
response with code -32602 (invalid params) and no result payload, so no
protocol-success response (and in particular no tool-level `isError`
payload) is produced. -/
theorem tools_call_invalid_params_spec (params : Option Json)
    (id : Option JsonRpcId) (state : IdeState) (sendOk : Bool)
    (h : params = none ∨ ∃ p, params = some p ∧ ToolsCallParams.fromJson p = none) :
    ∃ e, (handle_tools_call params id state sendOk).1.error = some e ∧
      e.code = -32602 ∧
      (handle_tools_call params id state sendOk).1.result = none := by
  rcases h with h | ⟨p, hp, hparse⟩
  · subst h
    exact ⟨_, rfl, rfl, rfl⟩
  · subst hp
    simp only [handle_tools_call, hparse]
    exact ⟨_, rfl, rfl, rfl⟩

/-- Witness for C1: a `tools/call` with params that are not even an object
is answered with error code -32602 and no result. -/
theorem tools_call_invalid_params_spec_witness :
    ∃ e, (handle_tools_call (some (Json.num 3)) none IdeState.new true).1.error = some e ∧
      e.code = -32602 ∧
      (handle_tools_call (some (Json.num 3)) none IdeState.new true).1.result = none :=
  tools_call_invalid_params_spec (some (Json.num 3)) none IdeState.new true
    (Or.inr ⟨Json.num 3, rfl, rfl⟩)

/-- C2: `openFile` without a string `filePath` argument returns a tool-level
error (`isError: true`) whose text contains "Missing required parameter" and
delivers no command; with a `filePath` and no `line` it delivers exactly one
`OpenFile` command with that path and no line; with a `filePath` and
`line = 42` the delivered command carries exactly that path and `some 42`. -/
theorem open_file_spec (args : List (String × Json)) (p : String) :
    (((argsGet args "filePath").bind Json.asStr = none) →
      (open_file args true).1.is_error = true ∧
      (∃ t, (open_file args true).1.content = [ToolContent.text t] ∧
        strContains t "Missing required parameter" = true) ∧
      (open_file args true).2 = []) ∧
    (argsGet args "filePath" = some (Json.str p) →
      argsGet args "line" = none →
      (open_file args true).2 = [IdeCommand.OpenFile p none]) ∧
    (argsGet args "filePath" = some (Json.str p) →
      argsGet args "line" = some (Json.num 42) →
      (open_file args true).2 = [IdeCommand.OpenFile p (some 42)]) := by
  refine ⟨fun h => ?_, fun hp hl => ?_, fun hp hl => ?_⟩
  · unfold open_file
    rw [h]
    exact ⟨rfl, ⟨_, rfl, by decide⟩, rfl⟩
  · have hs : (argsGet args "filePath").bind Json.asStr = some p := by rw [hp]; rfl
    simp only [open_file, hs, hl]
    simp
  · have hs : (argsGet args "filePath").bind Json.asStr = some p := by rw [hp]; rfl
    simp only [open_file, hs, hl]
    norm_num [intAsU32]
    exact ⟨42, rfl, by decide⟩

/-- Witness for C2: the three behaviors at concrete argument maps. -/
theorem open_file_spec_witness :
    ((open_file [] true).1.is_error = true ∧
      (∃ t, (open_file [] true).1.content = [ToolContent.text t] ∧
        strContains t "Missing required parameter" = true) ∧
      (open_file [] true).2 = []) ∧
    (open_file [("filePath", Json.str "a.rs")] true).2 =
      [IdeCommand.OpenFile "a.rs" none] ∧
    (open_file [("filePath", Json.str "a.rs"), ("line", Json.num 42)] true).2 =
      [IdeCommand.OpenFile "a.rs" (some 42)] :=
  ⟨(open_file_spec [] "a.rs").1 rfl,
   (open_file_spec [("filePath", Json.str "a.rs")] "a.rs").2.1 rfl rfl,
   (open_file_spec [("filePath", Json.str "a.rs"), ("line", Json.num 42)] "a.rs").2.2
     rfl rfl⟩

/-- C3: `getDiagnostics` without a filter returns every stored diagnostic in
order (converted); with a filter matched by no stored diagnostic it returns
the empty list; each returned severity is the stored severity string mapped
by error→error, warning→warning, hint→hint, anything else→information. -/
theorem get_diagnostics_spec (state : IdeState) (args : List (String × Json)) :
    ((argsGet args "filePath").bind Json.asStr = none →
      get_diagnostics_list state args = state.diagnostics.map mapDiagnostic) ∧
    (∀ f, (argsGet args "filePath").bind Json.asStr = some f →
      (∀ d ∈ state.diagnostics, d.file_path ≠ f) →
      get_diagnostics_list state args = []) ∧
    ((get_diagnostics_list state args).map Diagnostic.severity =
      (state.get_diagnostics ((argsGet args "filePath").bind Json.asStr)).map
        (fun d => severityOfString d.severity)) ∧
    (severityOfString "error" = DiagnosticSeverity.error ∧
     severityOfString "warning" = DiagnosticSeverity.warning ∧
     severityOfString "hint" = DiagnosticSeverity.hint ∧
     ∀ s, s ≠ "error" → s ≠ "warning" → s ≠ "hint" →
       severityOfString s = DiagnosticSeverity.information) := by
  refine ⟨fun h => ?_, fun f hf hnone => ?_, ?_, rfl, rfl, rfl, fun s h1 h2 h3 => ?_⟩
  · unfold get_diagnostics_list
    rw [h]
    rfl
  · unfold get_diagnostics_list
    rw [hf]
    show (state.diagnostics.filter (fun d => d.file_path == f)).map mapDiagnostic = []
    have hnil : state.diagnostics.filter (fun d => d.file_path == f) = [] := by
      rw [List.filter_eq_nil_iff]
      intro d hd
      simpa using hnone d hd
    rw [hnil, List.map_nil]
  · show ((state.get_diagnostics ((argsGet args "filePath").bind Json.asStr)).map
        mapDiagnostic).map Diagnostic.severity = _
    rw [List.map_map]
    rfl
  · simp [severityOfString, h1, h2, h3]

/-- Witness for C3: the sample snapshot with an unfiltered call, a
no-match filter, and an unrecognized severity string. -/
theorem get_diagnostics_spec_witness :
    get_diagnostics_list exDiagState [] = exDiagState.diagnostics.map mapDiagnostic ∧
    get_diagnostics_list exDiagState [("filePath", Json.str "nope.rs")] = [] ∧
    severityOfString "bogus" = DiagnosticSeverity.information :=
  ⟨(get_diagnostics_spec exDiagState []).1 rfl,
   (get_diagnostics_spec exDiagState [("filePath", Json.str "nope.rs")]).2.1
     "nope.rs" rfl (by decide),
   (get_diagnostics_spec exDiagState []).2.2.2.2.2.2 "bogus"
     (by decide) (by decide) (by decide)⟩

/-- C4 counterexample: a well-formed envelope without an id (a notification)
whose method is `ping` does receive a response, so "no response is ever
emitted for any notification, regardless of its method name" fails on the
code. -/
theorem notification_no_response_counterexample :
    handle_message (Json.obj [("jsonrpc", Json.str "2.0"), ("method", Json.str "ping")])
      IdeState.new true ≠ none := by
  intro h
  have hc : handle_message
      (Json.obj [("jsonrpc", Json.str "2.0"), ("method", Json.str "ping")])
      IdeState.new true = some (JsonRpcResponse.success none (Json.obj [])) := rfl
  rw [hc] at h
  exact Option.noConfusion h

/-- C4 (amended): no response is emitted exactly for the notification
methods the dispatcher recognizes: a well-formed envelope with protocol tag
"2.0" whose method is `initialized` or `notifications/cancelled` produces no
response, whatever its id and params; an id-less envelope with any other
method still receives a response. -/
theorem notification_methods_no_response (frame : Json) (state : IdeState)
    (sendOk : Bool) (r : JsonRpcRequest)
    (hp : JsonRpcRequest.fromJson frame = some r) (hv : r.jsonrpc = "2.0")
    (hm : r.method = "initialized" ∨ r.method = "notifications/cancelled") :
    handle_message frame state sendOk = none := by
  have hcond : ¬(("2.0" : String) ≠ "2.0") := by decide
  rcases hm with hm | hm <;>
    (simp only [handle_message, hp]
     rw [hv, if_neg hcond, hm]
     rfl)

/-- Witness for C4's amended statement: an `initialized` notification gets
no response. -/
theorem notification_methods_no_response_witness :
    handle_message
      (Json.obj [("jsonrpc", Json.str "2.0"), ("method", Json.str "initialized")])
      IdeState.new true = none :=
  notification_methods_no_response _ IdeState.new true
    { jsonrpc := "2.0", id := none, method := "initialized", params := none }
    rfl rfl (Or.inl rfl)

/-- C5: every valid envelope (protocol tag "2.0") whose method is none of
the six dispatched names is answered with a method-not-found error, code
-32601, carrying the same id as the request. -/
theorem unknown_method_spec (frame : Json) (state : IdeState) (sendOk : Bool)
    (r : JsonRpcRequest) (hp : JsonRpcRequest.fromJson frame = some r)
    (hv : r.jsonrpc = "2.0")
    (h1 : r.method ≠ "initialize") (h2 : r.method ≠ "initialized")
    (h3 : r.method ≠ "ping") (h4 : r.method ≠ "tools/list")
    (h5 : r.method ≠ "tools/call") (h6 : r.method ≠ "notifications/cancelled") :
    handle_message frame state sendOk =
      some (JsonRpcResponse.mkError r.id (JsonRpcError.method_not_found r.method)) ∧
    (JsonRpcError.method_not_found r.method).code = -32601 ∧
    (JsonRpcResponse.mkError r.id (JsonRpcError.method_not_found r.method)).id = r.id := by
  refine ⟨?_, rfl, rfl⟩
  have hcond : ¬(("2.0" : String) ≠ "2.0") := by decide
  simp only [handle_message, hp]
  rw [hv, if_neg hcond]
  simp only [handle_method, if_neg h1, if_neg h2, if_neg h3, if_neg h4,
    if_neg h5, if_neg h6]

/-- Witness for C5: an unknown method with a numeric id. -/
theorem unknown_method_spec_witness :
    handle_message
        (Json.obj [("jsonrpc", Json.str "2.0"), ("id", Json.num 7),
          ("method", Json.str "unknown/method"), ("params", Json.null)])
        IdeState.new true =
      some (JsonRpcResponse.mkError (some (JsonRpcId.num 7))
        (JsonRpcError.method_not_found "unknown/method")) ∧
    (JsonRpcError.method_not_found "unknown/method").code = -32601 ∧
    (JsonRpcResponse.mkError (some (JsonRpcId.num 7))
      (JsonRpcError.method_not_found "unknown/method")).id = some (JsonRpcId.num 7) :=
  unknown_method_spec _ IdeState.new true
    { jsonrpc := "2.0", id := some (JsonRpcId.num 7), method := "unknown/method",
      params := none }
    rfl rfl (by decide) (by decide) (by decide) (by decide) (by decide) (by decide)

/-- C6: the tool registry lists exactly 5 tools; every entry carries a
non-empty description and an `"object"`-typed input schema; the `openFile`
entry's schema lists `"filePath"` in its `"required"` array. -/
theorem all_tools_spec :
    all_tools.length = 5 ∧
    all_tools.all (fun t =>
      match t.description with
      | some d => !(d == "")
      | none => false) = true ∧
    all_tools.all (fun t => schemaTypeIsObject t.input_schema) = true ∧
    (all_tools.find? (fun t => t.name == "openFile")).map
      (fun t => schemaRequiresField t.input_schema "filePath") = some true :=
  ⟨rfl, rfl, rfl, rfl⟩

/-- C7: on a snapshot with no selection, `getCurrentSelection` returns a
non-error result whose payload is the "No selection" text. -/
theorem get_current_selection_no_selection (state : IdeState)
    (h : state.selection = none) :
    (get_current_selection state).is_error = false ∧
    (get_current_selection state).content = [ToolContent.text noSelectionText] ∧
    strContains noSelectionText "No selection" = true := by
  unfold get_current_selection IdeState.get_selection
  rw [h]
  exact ⟨rfl, rfl, by decide⟩

/-- Witness for C7: the empty snapshot. -/
theorem get_current_selection_no_selection_witness :
    (get_current_selection IdeState.new).is_error = false ∧
    (get_current_selection IdeState.new).content = [ToolContent.text noSelectionText] ∧
    strContains noSelectionText "No selection" = true :=
  get_current_selection_no_selection IdeState.new rfl

/-- C8: a frame that does not decode as a request envelope is answered with
a parse error, code -32700; a decoded envelope whose protocol tag is not
"2.0" is answered with an invalid-request error, code -32600. -/
theorem handle_message_error_codes (frame : Json) (state : IdeState)
    (sendOk : Bool) :
    (JsonRpcRequest.fromJson frame = none →
      handle_message frame state sendOk =
        some (JsonRpcResponse.mkError none JsonRpcError.parse_error) ∧
      JsonRpcError.parse_error.code = -32700) ∧
    (∀ r, JsonRpcRequest.fromJson frame = some r → r.jsonrpc ≠ "2.0" →
      handle_message frame state sendOk =
        some (JsonRpcResponse.mkError r.id
          (JsonRpcError.invalid_request "Expected jsonrpc version 2.0")) ∧
      (JsonRpcError.invalid_request "Expected jsonrpc version 2.0").code = -32600) := by
  constructor
  · intro h
    refine ⟨?_, rfl⟩
    unfold handle_message
    rw [h]
  · intro r hr hv
    refine ⟨?_, rfl⟩
    unfold handle_message
    rw [hr]
    simp only [if_pos hv]

/-- Witness for C8: a non-object frame, and an envelope with protocol tag
"1.0". -/
theorem handle_message_error_codes_witness :
    handle_message (Json.num 3) IdeState.new true =
      some (JsonRpcResponse.mkError none JsonRpcError.parse_error) ∧
    handle_message
        (Json.obj [("jsonrpc", Json.str "1.0"), ("method", Json.str "ping")])
        IdeState.new true =
      some (JsonRpcResponse.mkError none
        (JsonRpcError.invalid_request "Expected jsonrpc version 2.0")) :=
  ⟨((handle_message_error_codes (Json.num 3) IdeState.new true).1 rfl).1,
   (((handle_message_error_codes
       (Json.obj [("jsonrpc", Json.str "1.0"), ("method", Json.str "ping")])
       IdeState.new true).2
     { jsonrpc := "1.0", id := none, method := "ping", params := none }
     rfl (by decide))).1⟩

/-- C9 counterexample: a request whose `params` option is populated with the
JSON `null` value does not round trip: serde serializes `Some(Value::Null)`
as `"params": null`, and deserializing `null` into `Option<Value>` yields
`None`. -/
theorem roundtrip_counterexample :
    JsonRpcRequest.fromJson (JsonRpcRequest.toJson
        { jsonrpc := "2.0", id := none, method := "ping", params := some Json.null }) ≠
      some { jsonrpc := "2.0", id := none, method := "ping", params := some Json.null } := by
  intro h
  have hc : JsonRpcRequest.fromJson (JsonRpcRequest.toJson
      { jsonrpc := "2.0", id := none, method := "ping", params := some Json.null }) =
      some { jsonrpc := "2.0", id := none, method := "ping", params := none } := rfl
  rw [hc] at h
  simp at h

/-- C9 (amended): encode-then-decode is lossless for every request, response
and notification envelope, for every combination of populated optional
fields, provided no optional JSON-value field (request `params`, response
`result`, error `data`, notification `params`) is populated with the JSON
`null` value (serde collapses those to the absent field). -/
theorem roundtrip_lossless_amended (req : JsonRpcRequest)
    (resp : JsonRpcResponse) (ntf : JsonRpcNotification)
    (h1 : req.params ≠ some Json.null)
    (h2 : resp.result ≠ some Json.null)
    (h3 : ∀ e, resp.error = some e → e.data ≠ some Json.null)
    (h4 : ntf.params ≠ some Json.null) :
    JsonRpcRequest.fromJson (JsonRpcRequest.toJson req) = some req ∧
    JsonRpcResponse.fromJson (JsonRpcResponse.toJson resp) = some resp ∧
    JsonRpcNotification.fromJson (JsonRpcNotification.toJson ntf) = some ntf := by
  refine ⟨?_, ?_, ?_⟩
  · obtain ⟨ver, id, m, ps⟩ := req
    rcases id with _ | jid
    all_goals try cases jid
    all_goals rcases ps with _ | v
    all_goals try cases v
    all_goals first
      | rfl
      | exact absurd rfl h1
  · obtain ⟨ver, id, result, error⟩ := resp
    rcases error with _ | ⟨c, msg, data⟩
    all_goals rcases id with _ | jid
    all_goals try cases jid
    all_goals rcases result with _ | rv
    all_goals try cases rv
    all_goals try rcases data with _ | dv
    all_goals try cases dv
    all_goals first
      | rfl
      | exact absurd rfl h2
      | exact absurd rfl (h3 _ rfl)
  · obtain ⟨ver, m, ps⟩ := ntf
    rcases ps with _ | v
    all_goals try cases v
    all_goals first
      | rfl
      | exact absurd rfl h4

/-- Witness for C9's amended statement: concrete envelopes with all optional
fields populated (with non-null JSON values). -/
theorem roundtrip_lossless_amended_witness :
    JsonRpcRequest.fromJson (JsonRpcRequest.toJson
        { jsonrpc := "2.0", id := some (JsonRpcId.num 1), method := "tools/list",
          params := some (Json.obj [("a", Json.num 2)]) }) =
      some { jsonrpc := "2.0", id := some (JsonRpcId.num 1), method := "tools/list",
             params := some (Json.obj [("a", Json.num 2)]) } ∧
    JsonRpcResponse.fromJson (JsonRpcResponse.toJson
        { jsonrpc := "2.0", id := some (JsonRpcId.str "x"),
          result := some (Json.str "ok"),
          error := some { code := -32601, message := "nope",
                          data := some (Json.bool true) } }) =
      some { jsonrpc := "2.0", id := some (JsonRpcId.str "x"),
             result := some (Json.str "ok"),
             error := some { code := -32601, message := "nope",
                             data := some (Json.bool true) } } ∧
    JsonRpcNotification.fromJson (JsonRpcNotification.toJson
        { jsonrpc := "2.0", method := "notify",
          params := some (Json.arr [Json.num 1]) }) =
      some { jsonrpc := "2.0", method := "notify",
             params := some (Json.arr [Json.num 1]) } :=
  roundtrip_lossless_amended
    { jsonrpc := "2.0", id := some (JsonRpcId.num 1), method := "tools/list",
      params := some (Json.obj [("a", Json.num 2)]) }
    { jsonrpc := "2.0", id := some (JsonRpcId.str "x"),
      result := some (Json.str "ok"),
      error := some { code := -32601, message := "nope",
                      data := some (Json.bool true) } }
    { jsonrpc := "2.0", method := "notify",
      params := some (Json.arr [Json.num 1]) }
    (by simp) (by simp)
    (by intro e he; cases he; simp) (by simp)

/-- C10: after `set_active_file i`, the stored index is `i`; entry `j` of
the open-files list is the original entry with its `is_active` flag set to
whether `j = i` (so every other field is unchanged and at most one file is
active); and a file in the updated list is active exactly when its position
is `i`. -/
theorem set_active_file_spec (s : IdeState) (i : Nat) :
    (s.set_active_file i).active_file_index = i ∧
    (∀ j, (s.set_active_file i).open_files.get? j =
      (s.open_files.get? j).map (fun f => { f with is_active := j == i })) ∧
    (∀ j f, (s.set_active_file i).open_files.get? j = some f →
      (f.is_active = true ↔ j = i)) := by
  have hg : ∀ j, (s.set_active_file i).open_files.get? j =
      (s.open_files.get? j).map (fun f => { f with is_active := j == i }) := by
    intro j
    show (setActiveFlags i 0 s.open_files).get? j = _
    rw [setActiveFlags_get?]
    simp [Nat.zero_add]
  refine ⟨rfl, hg, fun j f hf => ?_⟩
  rw [hg j] at hf
  rcases ho : s.open_files.get? j with _ | f0
  · rw [ho] at hf
    simp at hf
  · rw [ho] at hf
    simp only [Option.map_some'] at hf
    have hfe := Option.some.inj hf
    subst hfe
    simp

/-- Witness for C10: switching the sample snapshot's active file to index 1
updates the index, deactivates entry 0 and activates entry 1. -/
theorem set_active_file_spec_witness :
    (sampleState.set_active_file 1).active_file_index = 1 ∧
    (sampleState.set_active_file 1).open_files.get? 0 =
      (sampleState.open_files.get? 0).map
        (fun f => { f with is_active := ((0 : Nat) == 1) }) ∧
    (({ file_path := "file2.rs", language_id := "rust", is_dirty := false,
        is_active := true, status := "Added", reviewed := false } : OpenFileInfo).is_active
      = true ↔ (1 : Nat) = 1) :=
  ⟨(set_active_file_spec sampleState 1).1,
   (set_active_file_spec sampleState 1).2.1 0,
   (set_active_file_spec sampleState 1).2.2 1 _ (by rfl)⟩
